import Mathlib

/-
Shallow embedding of the risk-managed trade-lifecycle engine of geminiBOT712
(risk_management/volatility_manager.py, risk_management/position_sizer.py,
risk_management/portfolio_monitor.py, execution/paper_trader.py,
execution/trade_executor.py, backtesting/backtest_engine.py,
backtesting/performance_analyzer.py, signal_generation/signal_aggregator.py),
with theorems checking the natural-language specification against it.
Python floats are modelled as rationals; direction strings as a two-valued
inductive type, matching the code's `== 'BULLISH' ... else` branching.
-/

namespace GeminiBot

/-- Trade direction. The source branches on the string `'BULLISH'` and treats
every other value as bearish, so a two-valued type is faithful. -/
inductive Direction
  | BULLISH
  | BEARISH
deriving DecidableEq, Repr

/- ---------------- config/trading_config.py ---------------- -/

/-- MAX_RISK_PER_TRADE = 0.02 in config/trading_config.py. -/
def MAX_RISK_PER_TRADE : ℚ := 2 / 100

/-- MAX_DAILY_LOSS_LIMIT = 0.08 in config/trading_config.py. -/
def MAX_DAILY_LOSS_LIMIT : ℚ := 8 / 100

/-- MIN_CONFIDENCE_SCORE = 85.0 in config/trading_config.py. -/
def MIN_CONFIDENCE_SCORE : ℚ := 85

/- ---------------- risk_management/volatility_manager.py ---------------- -/

/-- One OHLC bar as consumed by VolatilityManager.calculate_atr. -/
structure OHLCBar where
  high : ℚ
  low : ℚ
  close : ℚ
deriving DecidableEq, Repr

/-- True range of each bar after the first, relative to the previous close:
max(high - low, abs (high - prev_close), abs (low - prev_close)). -/
def true_range_rest (prev_close : ℚ) : List OHLCBar → List ℚ
  | [] => []
  | b :: bs =>
      max (b.high - b.low) (max |b.high - prev_close| |b.low - prev_close|) ::
        true_range_rest b.close bs

/-- True-range series: on the first bar `close.shift()` is NaN and the pandas
row-max skips NaN, leaving high - low. -/
def true_ranges : List OHLCBar → List ℚ
  | [] => []
  | b :: bs => (b.high - b.low) :: true_range_rest b.close bs

/-- Running value of `ewm(alpha, adjust=False).mean()` seeded at `s`. -/
def ewm_run (a : ℚ) (s : ℚ) : List ℚ → ℚ
  | [] => s
  | x :: xs => ewm_run a (a * x + (1 - a) * s) xs

/-- Last entry of `ewm(alpha=1/period, adjust=False).mean()` over a series
(`adjust=False` seeds the average at the first observation). -/
def ewm_last (a : ℚ) : List ℚ → ℚ
  | [] => 0
  | x :: xs => ewm_run a x xs

/-- VolatilityManager.calculate_atr: returns 0 when fewer than `period` bars
are available, else the exponentially smoothed true range. -/
def calculate_atr (price_history : List OHLCBar) (period : ℕ) : ℚ :=
  if price_history.length < period then 0
  else ewm_last (1 / (period : ℚ)) (true_ranges price_history)

/-- VolatilityManager.get_volatility_adjusted_stop_loss: ATR-multiple stop with
a fixed-percentage fallback (entry × 0.95 / entry × 1.05) when atr ≤ 0. -/
def get_volatility_adjusted_stop_loss (entry_price : ℚ) (direction : Direction)
    (atr : ℚ) (multiplier : ℚ) : ℚ :=
  if atr ≤ 0 then
    if direction = Direction.BULLISH then entry_price * (95 / 100)
    else entry_price * (105 / 100)
  else
    if direction = Direction.BULLISH then entry_price - atr * multiplier
    else entry_price + atr * multiplier

/-- VolatilityManager.trailing_stop: keeps the existing stop when atr ≤ 0,
otherwise ratchets it toward the current price. -/
def trailing_stop (current_price existing_stop : ℚ) (direction : Direction)
    (atr : ℚ) (multiplier : ℚ) : ℚ :=
  if atr ≤ 0 then existing_stop
  else
    if direction = Direction.BULLISH then
      max existing_stop (current_price - atr * multiplier)
    else
      min existing_stop (current_price + atr * multiplier)

/- ---------------- risk_management/position_sizer.py ---------------- -/

/-- PositionSizer._fixed_fractional: risk a fixed fraction of capital per unit
of stop distance; fails closed (0) when the stop distance is not positive. -/
def fixed_fractional (total_capital entry_price stop_loss_price : ℚ) : ℚ :=
  let risk_per_share := |entry_price - stop_loss_price|
  if risk_per_share ≤ 0 then 0
  else
    let risk_amount := total_capital * MAX_RISK_PER_TRADE
    risk_amount / risk_per_share

/-- PositionSizer._kelly_criterion: Kelly fraction `p - (1-p)/b`, halved
(half-Kelly) and clamped to MAX_RISK_PER_TRADE, then converted to a quantity
by the risk-amount formula. Returns 0 on non-positive odds, non-positive
Kelly fraction, or non-positive stop distance. -/
def kelly_criterion (total_capital entry_price stop_loss_price win_prob win_loss : ℚ) : ℚ :=
  if win_loss ≤ 0 then 0
  else
    let kelly_fraction := win_prob - (1 - win_prob) / win_loss
    if kelly_fraction ≤ 0 then 0
    else
      let kelly_half := kelly_fraction * (1 / 2)
      let risk_fraction := min kelly_half MAX_RISK_PER_TRADE
      let risk_amount := total_capital * risk_fraction
      let risk_per_share := |entry_price - stop_loss_price|
      if risk_per_share ≤ 0 then 0
      else risk_amount / risk_per_share

/- ---------------- risk_management/portfolio_monitor.py ---------------- -/

/-- One row of the `trades` table as returned by DBManager.get_open_trades
(the columns PortfolioMonitor.check_portfolio_pnl actually reads, plus the
`status` column the `WHERE status = 'open'` filter selects on). -/
structure Trade where
  symbol : String
  direction : Direction
  entry_price : ℚ
  position_size : ℚ
  status : String
deriving DecidableEq, Repr

/-- Per-trade mark-to-market P&L term accumulated by check_portfolio_pnl;
a trade whose price lookup returns none is skipped (`continue`). -/
def trade_pnl (price : String → Option ℚ) (t : Trade) : ℚ :=
  match price t.symbol with
  | none => 0
  | some current_price =>
      (current_price - t.entry_price) * t.position_size *
        (if t.direction = Direction.BULLISH then 1 else -1)

/-- The accumulator loop of check_portfolio_pnl: total_pnl starts at 0 and
adds each open trade's P&L, skipping trades with no available price. -/
def total_pnl_loop (price : String → Option ℚ) (acc : ℚ) : List Trade → ℚ
  | [] => acc
  | t :: ts =>
      match price t.symbol with
      | none => total_pnl_loop price acc ts
      | some current_price =>
          total_pnl_loop price
            (acc + (current_price - t.entry_price) * t.position_size *
              (if t.direction = Direction.BULLISH then 1 else -1)) ts

/-- Mutable state of PortfolioMonitor: the trades table it reads through
DBManager, its capital, and the is_trading_halted flag. -/
structure MonitorState where
  trades : List Trade
  capital : ℚ
  is_trading_halted : Bool
deriving Repr

/-- The daily drawdown check_portfolio_pnl computes and compares against
MAX_DAILY_LOSS_LIMIT: none when there are no open trades (the method returns
early and performs no check), else -total_pnl / capital over open trades. -/
def daily_drawdown_of (s : MonitorState) (price : String → Option ℚ) : Option ℚ :=
  let open_trades := s.trades.filter (fun t => t.status == "open")
  if open_trades.isEmpty then none
  else some (-(total_pnl_loop price 0 open_trades) / s.capital)

/-- PortfolioMonitor.check_portfolio_pnl as a state transition. The returned
Bool records whether the circuit breaker tripped on this evaluation, i.e.
whether the CRITICAL notification was surfaced. -/
def check_portfolio_pnl (s : MonitorState) (price : String → Option ℚ) :
    MonitorState × Bool :=
  match daily_drawdown_of s price with
  | none => (s, false)
  | some daily_drawdown =>
      if daily_drawdown ≥ MAX_DAILY_LOSS_LIMIT then
        (⟨s.trades, s.capital, true⟩, true)
      else (s, false)

/-- One iteration of PortfolioMonitor.run: while is_trading_halted the loop
only logs and sleeps (`continue`), so the P&L check does not run and no
CRITICAL notification can be surfaced. -/
def run_iteration (s : MonitorState) (price : String → Option ℚ) :
    MonitorState × Bool :=
  if s.is_trading_halted then (s, false)
  else check_portfolio_pnl s price

/-- Iterating the monitor loop over a sequence of price observations,
counting how many iterations surfaced the CRITICAL notification. -/
def run_trace (s : MonitorState) : List (String → Option ℚ) → MonitorState × ℕ
  | [] => (s, 0)
  | price :: rest =>
      let step := run_iteration s price
      let tail := run_trace step.1 rest
      (tail.1, (if step.2 then 1 else 0) + tail.2)

/-- Modelled from the spec: the drawdown formula the specification prescribes,
daily_drawdown = -(daily_realized_pnl + unrealized_pnl) / capital. Stated for
comparison with daily_drawdown_of, which the code actually computes. -/
def spec_daily_drawdown (daily_realized_pnl unrealized_pnl capital : ℚ) : ℚ :=
  -(daily_realized_pnl + unrealized_pnl) / capital

/- ---------------- execution/paper_trader.py, trade_executor.py ------------ -/

/-- A signal dict as consumed by PaperTrader.process_signal and persisted by
DBManager.save_signal. -/
structure Signal where
  symbol : String
  direction : Direction
  confidence_score : ℚ
  source_indicators : List String
deriving DecidableEq, Repr

/-- SimpleSizer.calculate_size from trade_executor.py, the sizer
BaseTradeExecutor installs: max(capital * 0.01 / abs (entry - stop), 0). -/
def simple_sizer_calculate_size (total_capital entry_price stop_loss_price : ℚ) : ℚ :=
  max (total_capital * (1 / 100) / |entry_price - stop_loss_price|) 0

/-- A persistence effect issued by the paper trader through DBManager. -/
inductive Effect
  | save_signal (signal : Signal)
  | save_trade (signal_id : ℕ) (symbol : String) (entry_price stop_loss position_size : ℚ)
deriving DecidableEq, Repr

/-- How one process_signal call ends. `name_error` records the unhandled
NameError PaperTrader.place_trade raises: its second log line interpolates
`entry_rice`, a name that is not defined anywhere. -/
inductive ProcOutcome
  | no_price
  | no_size
  | name_error
deriving DecidableEq, Repr

/-- The process-wide state process_signal runs against: the Redis price
cache, the historical bars DBManager.get_historical_data returns, the
PortfolioMonitor's is_trading_halted flag, and the trader's capital. -/
structure ExecState where
  price_cache : String → Option ℚ
  history : String → List OHLCBar
  is_trading_halted : Bool
  capital : ℚ

/-- PaperTrader.place_trade: it logs, interpolating the undefined name
`entry_rice`, so it raises NameError before reaching save_trade; no trade
row is ever persisted. -/
def place_trade (signal : Signal) (signal_id : ℕ)
    (entry_price stop_loss size : ℚ) : List Effect × ProcOutcome :=
  ([], ProcOutcome.name_error)

/-- PaperTrader.process_signal: skip when the cached price is missing or
falsy (None or 0), compute the ATR-based stop with a 2x multiplier (atr = 0
when there is no history), size via SimpleSizer, skip when size ≤ 0, then
persist the signal (save_signal) and attempt place_trade. Note the body
never consults is_trading_halted. -/
def process_signal (st : ExecState) (signal : Signal) : List Effect × ProcOutcome :=
  match st.price_cache signal.symbol with
  | none => ([], ProcOutcome.no_price)
  | some current_price =>
      if current_price = 0 then ([], ProcOutcome.no_price)
      else
        let price_history := st.history signal.symbol
        let atr := if price_history.isEmpty then 0 else calculate_atr price_history 14
        let stop_loss_price :=
          get_volatility_adjusted_stop_loss current_price signal.direction atr 2
        let size := simple_sizer_calculate_size st.capital current_price stop_loss_price
        if size ≤ 0 then ([], ProcOutcome.no_size)
        else
          let attempt := place_trade signal 1 current_price stop_loss_price size
          (Effect.save_signal signal :: attempt.1, attempt.2)

/- ---------------- backtesting/backtest_engine.py ---------------- -/

/-- Position direction in the backtester ('LONG' / 'SHORT' strings). -/
inductive BTDirection
  | LONG
  | SHORT
deriving DecidableEq, Repr

/-- An open backtest position as built by BacktestEngine._open_position. -/
structure Position where
  direction : BTDirection
  entry_price : ℚ
  size : ℚ
  stop_loss : ℚ
deriving DecidableEq, Repr

/-- BacktestEngine._close_position: pnl = (price - entry) * size, negated for
SHORT; the exit is recorded at the price passed in. Returns (exit_price, pnl). -/
def close_position (p : Position) (price : ℚ) : ℚ × ℚ :=
  let pnl := (price - p.entry_price) * p.size
  let signed_pnl := if p.direction = BTDirection.SHORT then -pnl else pnl
  (price, signed_pnl)

/-- The per-bar stop check in BacktestEngine.run: a LONG position closes when
current_price ≤ stop_loss, a SHORT when current_price ≥ stop_loss, and
_close_position is called with the observed current_price. -/
def run_close_check (p : Position) (current_price : ℚ) : Option (ℚ × ℚ) :=
  if p.direction = BTDirection.LONG ∧ current_price ≤ p.stop_loss then
    some (close_position p current_price)
  else if p.direction = BTDirection.SHORT ∧ current_price ≥ p.stop_loss then
    some (close_position p current_price)
  else none

/- ---------------- backtesting/performance_analyzer.py ---------------- -/

/-- Tail of the running maximum (pandas cummax) with current maximum `m`. -/
def cummax_go (m : ℚ) : List ℚ → List ℚ
  | [] => []
  | x :: xs => max m x :: cummax_go (max m x) xs

/-- pandas Series.cummax over the equity curve. -/
def cummax : List ℚ → List ℚ
  | [] => []
  | x :: xs => x :: cummax_go x xs

/-- The drawdown series (equity - roll_max) / roll_max. -/
def drawdown_series (equity_curve : List ℚ) : List ℚ :=
  List.zipWith (fun e m => (e - m) / m) equity_curve (cummax equity_curve)

/-- PerformanceAnalyzer.calculate_max_drawdown: abs of the minimum of the
drawdown series (0 for an empty curve, where pandas would yield NaN). -/
def calculate_max_drawdown (equity_curve : List ℚ) : ℚ :=
  match drawdown_series equity_curve with
  | [] => 0
  | d :: ds => |ds.foldl min d|

/-- Modelled from the spec: max over the running peak of (peak - equity)/peak,
exactly as the claim words it. Stated for comparison with
calculate_max_drawdown. -/
def spec_max_drawdown (equity_curve : List ℚ) : ℚ :=
  match List.zipWith (fun e m => (m - e) / m) equity_curve (cummax equity_curve) with
  | [] => 0
  | d :: ds => ds.foldl max d

/- ---------------- signal_generation/signal_aggregator.py ---------------- -/

/-- A parsed magnitude-prediction insight, the JSON value stored under an
`insight:<symbol>:magnitude_prediction` key. -/
structure Insight where
  confidence : ℚ
  direction : Direction
  predicted_pct_change : ℚ
deriving DecidableEq, Repr

/-- The pending-insight store: Redis keys with their parsed values. -/
def Store := List (String × Insight)

/-- Redis GET on the insight store. -/
def store_get (st : Store) (key : String) : Option Insight :=
  (List.find? (fun kv => kv.1 == key) st).map (fun kv => kv.2)

/-- Redis DELETE on the insight store. -/
def store_delete (st : Store) (key : String) : Store :=
  List.filter (fun kv => !(kv.1 == key)) st

/-- Round half to even at the last integer digit (python's bankers rounding). -/
def round_half_even (q : ℚ) : ℤ :=
  let f := ⌊q⌋
  if q - f < 1 / 2 then f
  else if q - f > 1 / 2 then f + 1
  else if 2 ∣ f then f else f + 1

/-- python round(x, 2). -/
def round2 (q : ℚ) : ℚ :=
  (round_half_even (q * 100) : ℚ) / 100

/-- The final signal dict SignalAggregator publishes to `trade_signals`. -/
structure FinalSignal where
  symbol : String
  direction : Direction
  confidence_score : ℚ
  predicted_pct_change : ℚ
deriving DecidableEq, Repr

/-- How one evaluate_prediction call ends. -/
inductive EvalOutcome
  | missing
  | rejected_low_confidence
  | published
deriving DecidableEq, Repr

/-- SignalAggregator.evaluate_prediction: look the key up (return with no
change when absent), scale confidence by 100, delete the key and return when
below MIN_CONFIDENCE_SCORE, else publish the final signal and delete the
key. Returns the updated store, the outcome, and the published signal. -/
def evaluate_prediction (st : Store) (prediction_key : String) :
    Store × EvalOutcome × Option FinalSignal :=
  match store_get st prediction_key with
  | none => (st, EvalOutcome.missing, none)
  | some prediction =>
      let symbol := ((prediction_key.splitOn ":").getD 1 "")
      let confidence := prediction.confidence * 100
      if confidence < MIN_CONFIDENCE_SCORE then
        (store_delete st prediction_key, EvalOutcome.rejected_low_confidence, none)
      else
        (store_delete st prediction_key, EvalOutcome.published,
          some ⟨symbol, prediction.direction, round2 confidence,
                prediction.predicted_pct_change⟩)

/- ======================= theorems ======================= -/

/-- C1: trailing_stop never moves the stop against the trader: a BULLISH call
returns at least the existing stop and a BEARISH call at most the existing
stop, for every current price, ATR and multiplier; and on the concrete pair
of calls from the test suite it returns 103 and then again 103. -/
theorem trailing_stop_never_adverse :
    (∀ current_price existing_stop atr multiplier : ℚ,
        existing_stop ≤
          trailing_stop current_price existing_stop Direction.BULLISH atr multiplier ∧
        trailing_stop current_price existing_stop Direction.BEARISH atr multiplier ≤
          existing_stop) ∧
    trailing_stop 105 100 Direction.BULLISH 2 1 = 103 ∧
    trailing_stop 101 103 Direction.BULLISH 2 1 = 103 := by
  refine ⟨fun current_price existing_stop atr multiplier => ⟨?_, ?_⟩, by norm_num [trailing_stop, max_def], by norm_num [trailing_stop, max_def]⟩
  · unfold trailing_stop
    split_ifs <;> simp_all [le_max_left]
  · unfold trailing_stop
    split_ifs <;> simp_all [min_le_left]

/-- C10: when atr ≤ 0, trailing_stop returns exactly the existing stop for
every direction and multiplier — no fixed-percentage fallback is applied
while trailing — whereas the initial-stop calculation falls back to
entry × 0.95 (BULLISH) or entry × 1.05 (BEARISH). -/
theorem trailing_stop_frozen_on_invalid_atr :
    ∀ current_price existing_stop entry_price atr multiplier : ℚ, ∀ d : Direction,
      atr ≤ 0 →
      trailing_stop current_price existing_stop d atr multiplier = existing_stop ∧
      get_volatility_adjusted_stop_loss entry_price Direction.BULLISH atr multiplier =
        entry_price * (95 / 100) ∧
      get_volatility_adjusted_stop_loss entry_price Direction.BEARISH atr multiplier =
        entry_price * (105 / 100) := by
  intro current_price existing_stop entry_price atr multiplier d h
  refine ⟨?_, ?_, ?_⟩ <;>
    simp [trailing_stop, get_volatility_adjusted_stop_loss, h]

/-- Witness for C10 at atr = 0: the stop 103 is frozen and the initial-stop
fallbacks evaluate to 95 and 105 from entry 100. -/
theorem trailing_stop_frozen_on_invalid_atr_witness :
    trailing_stop 101 103 Direction.BULLISH 0 2 = 103 ∧
    get_volatility_adjusted_stop_loss 100 Direction.BULLISH 0 2 = 100 * (95 / 100) ∧
    get_volatility_adjusted_stop_loss 100 Direction.BEARISH 0 2 = 100 * (105 / 100) :=
  trailing_stop_frozen_on_invalid_atr 101 103 100 0 2 Direction.BULLISH (le_refl 0)

/-- C6: with positive capital and entry ≠ stop, fixed-fractional sizing
returns exactly capital × MAX_RISK_PER_TRADE / |entry − stop|, which is
strictly positive; and when |entry − stop| ≤ 0 it fails closed to 0. -/
theorem fixed_fractional_spec :
    (∀ total_capital entry_price stop_loss_price : ℚ,
        0 < total_capital → entry_price ≠ stop_loss_price →
        fixed_fractional total_capital entry_price stop_loss_price =
          total_capital * MAX_RISK_PER_TRADE / |entry_price - stop_loss_price| ∧
        0 < fixed_fractional total_capital entry_price stop_loss_price) ∧
    (∀ total_capital entry_price stop_loss_price : ℚ,
        |entry_price - stop_loss_price| ≤ 0 →
        fixed_fractional total_capital entry_price stop_loss_price = 0) := by
  constructor
  · intro total_capital entry_price stop_loss_price hcap hne
    have habs : 0 < |entry_price - stop_loss_price| :=
      abs_pos.mpr (sub_ne_zero.mpr hne)
    have hform : fixed_fractional total_capital entry_price stop_loss_price =
        total_capital * MAX_RISK_PER_TRADE / |entry_price - stop_loss_price| := by
      unfold fixed_fractional
      rw [if_neg (not_le.mpr habs)]
    refine ⟨hform, ?_⟩
    rw [hform]
    have hrisk : (0 : ℚ) < MAX_RISK_PER_TRADE := by norm_num [MAX_RISK_PER_TRADE]
    exact div_pos (mul_pos hcap hrisk) habs
  · intro total_capital entry_price stop_loss_price h
    unfold fixed_fractional
    rw [if_pos h]

/-- Witness for C6 at (capital, entry, stop) = (10000, 150, 145), where the
size is 10000 × 0.02 / 5 = 40 > 0, and at entry = stop = 100, where it is 0. -/
theorem fixed_fractional_spec_witness :
    (fixed_fractional 10000 150 145 =
        10000 * MAX_RISK_PER_TRADE / |(150 : ℚ) - 145| ∧
      0 < fixed_fractional 10000 150 145) ∧
    fixed_fractional 10000 100 100 = 0 :=
  ⟨fixed_fractional_spec.1 10000 150 145 (by norm_num) (by norm_num),
   fixed_fractional_spec.2 10000 100 100 (by norm_num)⟩

/-- C7 counterexample: the claim's no-edge condition
win_probability ≤ loss_probability × win_loss_ratio holds at
win_probability = 1/2, win_loss_ratio = 2 (1/2 ≤ 1), yet the code's Kelly
sizing at capital 10000, entry 100, stop 95 returns 40, not 0 — the code's
actual no-edge test is win_probability ≤ loss_probability / win_loss_ratio. -/
theorem kelly_no_edge_counterexample :
    ((1 : ℚ) / 2) ≤ (1 - 1 / 2) * 2 ∧
    kelly_criterion 10000 100 95 (1 / 2) 2 = 40 ∧ (40 : ℚ) ≠ 0 :=
  ⟨by norm_num, by norm_num [kelly_criterion, min_def, abs_eq_max_neg, max_def, MAX_RISK_PER_TRADE], by norm_num⟩

/-- C7 amended: the code returns 0 exactly when the Kelly fraction
win_probability − loss_probability / win_loss_ratio is non-positive (given a
positive win_loss ratio); with positive edge, the applied risk fraction is
the half-Kelly fraction clamped to MAX_RISK_PER_TRADE — never the undamped
Kelly fraction. -/
theorem kelly_criterion_spec :
    (∀ total_capital entry_price stop_loss_price win_prob win_loss : ℚ,
        0 < win_loss → win_prob ≤ (1 - win_prob) / win_loss →
        kelly_criterion total_capital entry_price stop_loss_price win_prob win_loss = 0) ∧
    (∀ total_capital entry_price stop_loss_price win_prob win_loss : ℚ,
        0 < win_loss → 0 < win_prob - (1 - win_prob) / win_loss →
        kelly_criterion total_capital entry_price stop_loss_price win_prob win_loss =
          if |entry_price - stop_loss_price| ≤ 0 then 0
          else total_capital *
              min ((win_prob - (1 - win_prob) / win_loss) * (1 / 2)) MAX_RISK_PER_TRADE /
              |entry_price - stop_loss_price|) := by
  constructor
  · intro total_capital entry_price stop_loss_price win_prob win_loss hr h
    unfold kelly_criterion
    rw [if_neg (not_le.mpr hr), if_pos (sub_nonpos.mpr h)]
  · intro total_capital entry_price stop_loss_price win_prob win_loss hr hf
    unfold kelly_criterion
    rw [if_neg (not_le.mpr hr), if_neg (not_le.mpr hf)]

/-- Witness for C7: at (win_prob, win_loss) = (1/4, 1) the Kelly fraction is
non-positive and the size is 0; at (1/2, 2) the edge is positive and the
size follows the clamped half-Kelly formula. -/
theorem kelly_criterion_spec_witness :
    kelly_criterion 10000 100 95 (1 / 4) 1 = 0 ∧
    kelly_criterion 10000 100 95 (1 / 2) 2 =
      (if |(100 : ℚ) - 95| ≤ 0 then 0
       else 10000 * min (((1 : ℚ) / 2 - (1 - 1 / 2) / 2) * (1 / 2)) MAX_RISK_PER_TRADE /
           |(100 : ℚ) - 95|) :=
  ⟨kelly_criterion_spec.1 10000 100 95 (1 / 4) 1 (by norm_num) (by norm_num),
   kelly_criterion_spec.2 10000 100 95 (1 / 2) 2 (by norm_num) (by norm_num)⟩

/-- A min-fold never exceeds its initial accumulator. -/
lemma foldl_min_le_init (l : List ℚ) (a : ℚ) : l.foldl min a ≤ a := by
  induction l generalizing a with
  | nil => exact le_refl a
  | cons x xs ih =>
      exact le_trans (ih (min a x)) (min_le_left a x)

/-- Negating a list turns a min-fold into a max-fold. -/
lemma foldl_max_map_neg (l : List ℚ) (a : ℚ) :
    (l.map (fun x => -x)).foldl max (-a) = -(l.foldl min a) := by
  induction l generalizing a with
  | nil => rfl
  | cons x xs ih =>
      simp only [List.map_cons, List.foldl_cons, max_neg_neg]
      exact ih (min a x)

/-- The spec's per-point drawdown (peak - equity)/peak is the pointwise
negation of the code's (equity - peak)/peak. -/
lemma zipWith_peak_neg (equity peaks : List ℚ) :
    List.zipWith (fun e m => (m - e) / m) equity peaks =
      (List.zipWith (fun e m => (e - m) / m) equity peaks).map (fun x => -x) := by
  induction equity generalizing peaks with
  | nil => simp
  | cons e es ih =>
      cases peaks with
      | nil => simp
      | cons m ms =>
          simp only [List.zipWith_cons_cons, List.map_cons, ih ms, List.cons.injEq,
            and_true]
          rw [← neg_div, neg_sub]

/-- C9: calculate_max_drawdown (abs of the minimum of (equity - peak)/peak)
equals the maximum over the curve of (peak - equity)/peak for every nonempty
equity curve, and on [100, 110, 90, 95] it returns (110 - 90)/110 = 2/11. -/
theorem calculate_max_drawdown_spec :
    (∀ (x : ℚ) (xs : List ℚ),
        calculate_max_drawdown (x :: xs) = spec_max_drawdown (x :: xs)) ∧
    calculate_max_drawdown [100, 110, 90, 95] = 2 / 11 := by
  constructor
  · intro x xs
    unfold calculate_max_drawdown spec_max_drawdown drawdown_series
    rw [zipWith_peak_neg]
    show (|List.foldl min ((x - x) / x)
        (List.zipWith (fun e m => (e - m) / m) xs (cummax_go x xs))| : ℚ) =
      List.foldl max (-((x - x) / x))
        ((List.zipWith (fun e m => (e - m) / m) xs (cummax_go x xs)).map (fun x => -x))
    have hx : ((x : ℚ) - x) / x = 0 := by rw [sub_self, zero_div]
    rw [hx, foldl_max_map_neg]
    exact abs_of_nonpos (foldl_min_le_init _ 0)
  · norm_num [calculate_max_drawdown, drawdown_series, cummax, cummax_go,
      List.zipWith, max_def, min_def, abs_eq_max_neg]

/-- The accumulator loop of check_portfolio_pnl equals the sum of the
per-trade P&L terms. -/
lemma total_pnl_loop_eq (price : String → Option ℚ) (l : List Trade) (acc : ℚ) :
    total_pnl_loop price acc l = acc + (l.map (trade_pnl price)).sum := by
  induction l generalizing acc with
  | nil => simp [total_pnl_loop]
  | cons t ts ih =>
      cases hp : price t.symbol with
      | none =>
          simp only [total_pnl_loop, trade_pnl, hp, List.map_cons, List.sum_cons]
          rw [ih]
          ring
      | some current_price =>
          simp only [total_pnl_loop, trade_pnl, hp, List.map_cons, List.sum_cons]
          rw [ih]
          ring

/-- C2 amended: the drawdown the monitor compares against the daily loss
limit is computed from OPEN trades' unrealized P&L only — it equals
-(sum of per-open-trade mark-to-market P&L) / capital, with no realized-P&L
term anywhere (and no check at all happens when no trade is open). -/
theorem daily_drawdown_ignores_realized :
    ∀ (trades : List Trade) (price : String → Option ℚ) (capital : ℚ) (halted : Bool),
      daily_drawdown_of ⟨trades, capital, halted⟩ price =
        (if (trades.filter (fun t => t.status == "open")).isEmpty then none
         else some
           (-(((trades.filter (fun t => t.status == "open")).map (trade_pnl price)).sum) /
             capital)) := by
  intro trades price capital halted
  simp only [daily_drawdown_of, total_pnl_loop_eq, zero_add]

/-- C2 counterexample: with one OPEN trade at its entry price (unrealized
P&L 0) and a realized loss of 500 booked earlier in the day on capital
10000, the code's drawdown is 0 while the claimed formula
-(daily_realized_pnl + unrealized_pnl)/capital gives 1/20; realized P&L is
not included (indeed no realized-P&L quantity exists in the monitor). -/
theorem daily_drawdown_realized_counterexample :
    daily_drawdown_of ⟨[⟨"AAPL", Direction.BULLISH, 100, 1, "open"⟩], 10000, false⟩
        (fun _ => some 100) = some 0 ∧
    spec_daily_drawdown (-500) 0 10000 = 1 / 20 ∧
    some (0 : ℚ) ≠ some (1 / 20 : ℚ) := by
  refine ⟨?_, by norm_num [spec_daily_drawdown], by norm_num⟩
  norm_num [daily_drawdown_of, total_pnl_loop]

/-- check_portfolio_pnl either leaves the state unchanged without notifying,
or halts and notifies. -/
lemma check_portfolio_pnl_shape (s : MonitorState) (price : String → Option ℚ) :
    check_portfolio_pnl s price = (s, false) ∨
      check_portfolio_pnl s price = (⟨s.trades, s.capital, true⟩, true) := by
  unfold check_portfolio_pnl
  cases daily_drawdown_of s price with
  | none => exact Or.inl rfl
  | some dd =>
      by_cases h : dd ≥ MAX_DAILY_LOSS_LIMIT
      · exact Or.inr (by simp [h])
      · exact Or.inl (by simp [h])

/-- While halted, the monitor loop never runs the P&L check: the state is
untouched (in particular the halted flag never reverts) and no CRITICAL
notification is surfaced, over any sequence of iterations. -/
lemma run_trace_halted (s : MonitorState) (ps : List (String → Option ℚ))
    (h : s.is_trading_halted = true) : run_trace s ps = (s, 0) := by
  induction ps with
  | nil => rfl
  | cons p rest ih =>
      unfold run_trace run_iteration
      rw [h]
      simpa using ih

/-- C5: while already halted every iteration of the monitor loop is a no-op
that re-triggers no CRITICAL notification and never clears the flag; and
starting un-halted, the total number of CRITICAL notifications over any run
is exactly 1 if the run ends halted and 0 otherwise — the circuit breaker
trips at most once, together with a single notification. -/
theorem portfolio_halt_once :
    (∀ (s : MonitorState) (ps : List (String → Option ℚ)),
        s.is_trading_halted = true → run_trace s ps = (s, 0)) ∧
    (∀ (s : MonitorState) (ps : List (String → Option ℚ)),
        s.is_trading_halted = false →
        (run_trace s ps).2 =
          if (run_trace s ps).1.is_trading_halted then 1 else 0) := by
  refine ⟨run_trace_halted, ?_⟩
  intro s ps
  induction ps generalizing s with
  | nil =>
      intro h
      simp [run_trace, h]
  | cons p rest ih =>
      intro h
      unfold run_trace run_iteration
      rw [h]
      rcases check_portfolio_pnl_shape s p with hc | hc
      · simpa [hc] using ih s h
      · simp [hc, run_trace_halted ⟨s.trades, s.capital, true⟩ rest rfl]

/-- Witness for C5: a concrete halted state stays untouched for an
iteration, and a concrete un-halted run over one observation that breaches
the 8% limit (entry 1000, price 100, capital 10000) notifies exactly once. -/
theorem portfolio_halt_once_witness :
    run_trace ⟨[], 10000, true⟩ [fun _ => some 100] = (⟨[], 10000, true⟩, 0) ∧
    (run_trace ⟨[⟨"X", Direction.BULLISH, 1000, 1, "open"⟩], 10000, false⟩
        [fun _ => some 100]).2 =
      (if (run_trace ⟨[⟨"X", Direction.BULLISH, 1000, 1, "open"⟩], 10000, false⟩
          [fun _ => some 100]).1.is_trading_halted then 1 else 0) :=
  ⟨portfolio_halt_once.1 ⟨[], 10000, true⟩ [fun _ => some 100] rfl,
   portfolio_halt_once.2 ⟨[⟨"X", Direction.BULLISH, 1000, 1, "open"⟩], 10000, false⟩
     [fun _ => some 100] rfl⟩

/-- C4 counterexample: a LONG position with entry 100, size 1, stop 95
observed at price 90 closes with exit_price = 90 (the observed price) and
pnl = -10; the claim's exit at the stop price (95, pnl -5) does not match:
_close_position receives the observed price, not the stop. -/
theorem backtest_exit_at_observed_price :
    run_close_check ⟨BTDirection.LONG, 100, 1, 95⟩ 90 = some (90, -10) ∧
    (90 : ℚ) ≠ 95 := by
  constructor
  · norm_num [run_close_check, close_position]
    decide
  · norm_num

/-- C4 amended: a position closes on a bar exactly when the observed price
crosses its stop adversely (LONG and price ≤ stop, or SHORT and
price ≥ stop); the exit is recorded at the OBSERVED price, and the recorded
pnl is (exit − entry) × size × (+1 for LONG, −1 for SHORT), so the sign is
correct for both directions. -/
theorem backtest_close_check_spec :
    ∀ (p : Position) (current_price : ℚ),
      ((run_close_check p current_price).isSome ↔
        ((p.direction = BTDirection.LONG ∧ current_price ≤ p.stop_loss) ∨
         (p.direction = BTDirection.SHORT ∧ p.stop_loss ≤ current_price))) ∧
      (∀ exit_price pnl,
        run_close_check p current_price = some (exit_price, pnl) →
        exit_price = current_price ∧
        pnl = (current_price - p.entry_price) * p.size *
          (if p.direction = BTDirection.LONG then 1 else -1)) := by
  intro p current_price
  cases hd : p.direction with
  | LONG =>
      by_cases hcp : current_price ≤ p.stop_loss
      · constructor
        · simp [run_close_check, hd, hcp]
        · intro exit_price pnl hsome
          simp only [run_close_check, close_position, hd, hcp, and_true, true_and,
            if_pos, if_true, reduceCtorEq, false_and, and_false, if_false,
            Option.some.injEq, Prod.mk.injEq] at hsome
          rcases hsome with ⟨he, hp⟩
          subst he
          subst hp
          simp [hd]
      · constructor
        · simp [run_close_check, hd, hcp]
        · intro exit_price pnl hsome
          simp [run_close_check, hd, hcp] at hsome
  | SHORT =>
      by_cases hcs : p.stop_loss ≤ current_price
      · constructor
        · simp [run_close_check, hd, hcs]
        · intro exit_price pnl hsome
          simp only [run_close_check, close_position, hd, hcs, and_true, true_and,
            if_pos, if_true, reduceCtorEq, false_and, and_false, if_false, ge_iff_le,
            Option.some.injEq, Prod.mk.injEq] at hsome
          rcases hsome with ⟨he, hp⟩
          subst he
          subst hp
          simp [hd]
      · constructor
        · simp [run_close_check, hd, hcs]
        · intro exit_price pnl hsome
          simp [run_close_check, hd, hcs] at hsome

/-- Witness for C4 at the LONG position (entry 100, size 1, stop 95) and
observed price 90: the exit equals the observed price and the pnl follows
the signed formula. -/
theorem backtest_close_check_spec_witness :
    (90 : ℚ) = 90 ∧
    (-10 : ℚ) = ((90 : ℚ) - (Position.mk BTDirection.LONG 100 1 95).entry_price) *
        (Position.mk BTDirection.LONG 100 1 95).size *
        (if (Position.mk BTDirection.LONG 100 1 95).direction = BTDirection.LONG
          then 1 else -1) :=
  (backtest_close_check_spec ⟨BTDirection.LONG, 100, 1, 95⟩ 90).2 90 (-10)
    (by norm_num [run_close_check, close_position]; decide)

/-- C3: the is_trading_halted flag is not consulted anywhere on the
admission path — process_signal behaves identically whatever the flag is —
and on a concrete halted state with a live price and a positive size it
still persists the signal row and runs into place_trade's NameError. This
contradicts the monitor's own message that no new trades will be placed
while halted. -/
theorem paper_trader_ignores_halt :
    (∀ (st : ExecState) (signal : Signal) (b : Bool),
        process_signal { st with is_trading_halted := b } signal =
          process_signal st signal) ∧
    process_signal
        ⟨fun s => if s = "AAPL" then some 100 else none, fun _ => [], true, 10000⟩
        ⟨"AAPL", Direction.BULLISH, 90, []⟩ =
      ([Effect.save_signal ⟨"AAPL", Direction.BULLISH, 90, []⟩],
        ProcOutcome.name_error) := by
  constructor
  · intro st signal b
    rfl
  · norm_num [process_signal, place_trade, get_volatility_adjusted_stop_loss,
      simple_sizer_calculate_size, max_def, abs_eq_max_neg]

/-- Deleting a key removes it from the insight store. -/
lemma store_get_delete (st : Store) (key : String) :
    store_get (store_delete st key) key = none := by
  induction st with
  | nil => rfl
  | cons kv rest ih =>
      unfold store_get store_delete at *
      by_cases h : kv.1 == key
      · simpa [List.filter_cons, h] using ih
      · simpa [List.filter_cons, h, List.find?_cons, Bool.not_eq_true] using ih

/-- A key absent from the store makes evaluate_prediction a no-op. -/
lemma evaluate_prediction_missing (st : Store) (key : String)
    (h : store_get st key = none) :
    evaluate_prediction st key = (st, EvalOutcome.missing, none) := by
  unfold evaluate_prediction
  rw [h]

/-- When the key is present, both the reject branch and the publish branch
return the store with the key deleted. -/
lemma evaluate_prediction_deletes (st : Store) (key : String) (pred : Insight)
    (h : store_get st key = some pred) :
    (evaluate_prediction st key).1 = store_delete st key := by
  unfold evaluate_prediction
  rw [h]
  dsimp only
  split_ifs <;> rfl

/-- C8: whenever evaluate_prediction actually evaluates a pending insight
key — publishing a signal or rejecting it for low confidence — the key is
deleted from the store, and re-evaluating the same key afterwards is a
guaranteed no-op (at-most-once evaluation per insight). -/
theorem signal_aggregator_at_most_once :
    ∀ (st : Store) (prediction_key : String),
      (evaluate_prediction st prediction_key).2.1 ≠ EvalOutcome.missing →
      store_get (evaluate_prediction st prediction_key).1 prediction_key = none ∧
      evaluate_prediction (evaluate_prediction st prediction_key).1 prediction_key =
        ((evaluate_prediction st prediction_key).1, EvalOutcome.missing, none) := by
  intro st prediction_key h
  cases hg : store_get st prediction_key with
  | none =>
      rw [evaluate_prediction_missing st prediction_key hg] at h
      exact absurd rfl h
  | some pred =>
      have h1 : (evaluate_prediction st prediction_key).1 =
          store_delete st prediction_key :=
        evaluate_prediction_deletes st prediction_key pred hg
      have h2 : store_get (evaluate_prediction st prediction_key).1 prediction_key =
          none := by
        rw [h1]
        exact store_get_delete st prediction_key
      exact ⟨h2, evaluate_prediction_missing _ prediction_key h2⟩

/-- Witness for C8 on a one-entry store whose insight has confidence 0.9
(score 90 ≥ 85, so it is published): afterwards the key is gone and a
repeated evaluation is a no-op. -/
theorem signal_aggregator_at_most_once_witness :
    store_get
        (evaluate_prediction
          [("insight:AAPL:magnitude_prediction",
            ⟨9 / 10, Direction.BULLISH, 5⟩)]
          "insight:AAPL:magnitude_prediction").1
        "insight:AAPL:magnitude_prediction" = none ∧
    evaluate_prediction
        (evaluate_prediction
          [("insight:AAPL:magnitude_prediction",
            ⟨9 / 10, Direction.BULLISH, 5⟩)]
          "insight:AAPL:magnitude_prediction").1
        "insight:AAPL:magnitude_prediction" =
      ((evaluate_prediction
          [("insight:AAPL:magnitude_prediction",
            ⟨9 / 10, Direction.BULLISH, 5⟩)]
          "insight:AAPL:magnitude_prediction").1,
        EvalOutcome.missing, none) :=
  signal_aggregator_at_most_once
    [("insight:AAPL:magnitude_prediction", ⟨9 / 10, Direction.BULLISH, 5⟩)]
    "insight:AAPL:magnitude_prediction"
    (by norm_num [evaluate_prediction, store_get, List.find?, MIN_CONFIDENCE_SCORE]; decide)

end GeminiBot
